import Mathlib

/-!
Shallow embedding of the VORTEX single-file React site (src/App.tsx) and
verification of the spec's testable properties against it.

The interactive logic embedded here, each translated from the source:
* the contact-form submit handler (`ContactForm.handleSubmit`, lines 1072-1123),
  including the email regex test and the honeypot check;
* the real-estate mini-site filter (`RealEstateMiniSite`, lines 757-834);
* the scroll-progress computation (`App` effect, lines 67-80, and `clamp`, line 50);
* the canvas particle background (`CanvasParticles`, lines 418-509);
* the decorative limited-slots counter (`CTABox`, lines 1245-1254).

JavaScript numbers are modelled as rationals (ℚ) where the source does real
arithmetic and as naturals/integers where the source only ever holds integral
values; strings are Lean `String`s (lists of unicode scalar values).
-/

namespace Vortex

/-! ### JavaScript string primitives used by the source -/

/-- The whitespace class of JavaScript (`\s`, and the characters trimmed by
`String.prototype.trim`), restricted to the ASCII control/space characters,
which are the only ones the embedded strings can contain. -/
def isJsSpace (c : Char) : Bool :=
  c = ' ' || c = '\t' || c = '\n' || c = '\r' || c = '\x0b' || c = '\x0c'

/-- `String.prototype.trim`: remove leading and trailing whitespace. -/
def jsTrim (s : String) : String :=
  ⟨((s.data.dropWhile isJsSpace).reverse.dropWhile isJsSpace).reverse⟩

/-- Helper for `jsIncludes`: does `l` contain `sub` as a contiguous sublist? -/
def listIncludes (sub : List Char) : List Char → Bool
  | [] => sub.isEmpty
  | a :: t => sub.isPrefixOf (a :: t) || listIncludes sub t

/-- `String.prototype.includes`: `jsIncludes s sub` is true iff `sub` occurs as
a contiguous substring of `s` (the empty string occurs in every string). -/
def jsIncludes (s sub : String) : Bool :=
  listIncludes sub.data s.data

/-- `String.prototype.toLowerCase`, restricted to ASCII case folding (the
sample-listing titles only contain ASCII uppercase letters). -/
def jsToLower (s : String) : String :=
  ⟨s.data.map Char.toLower⟩

/-! ### The email regex `/\S+@\S+\.\S+/` (src/App.tsx line 1070)

`RegExp.prototype.test` is unanchored: it succeeds iff SOME substring of the
input matches `\S+@\S+\.\S+`, i.e. the input contains a non-space character,
then `@`, then one or more non-space characters, then `.`, then a non-space
character.  The matcher below scans for exactly that decomposition. -/

/-- After the mandatory first character of the `\S+` block following `@`:
succeed iff the list starts with zero or more non-space characters followed by
a literal `.` followed by a non-space character. -/
def seekDot : List Char → Bool
  | [] => false
  | x :: xs =>
    (decide (x = '.') && (match xs with
      | [] => false
      | c :: _ => !(isJsSpace c)))
    || (!(isJsSpace x) && seekDot xs)

/-- Matches `\S+\.\S+` at the start of the list (the part after `@`). -/
def afterAt : List Char → Bool
  | [] => false
  | x :: xs => !(isJsSpace x) && seekDot xs

/-- Scans the whole list for a position with a non-space character immediately
followed by `@` whose tail matches `\S+\.\S+`. -/
def scanAt : List Char → Bool
  | [] => false
  | [_] => false
  | a :: b :: rest =>
    (decide (b = '@') && !(isJsSpace a) && afterAt rest) || scanAt (b :: rest)

/-- `validateEmail` (src/App.tsx line 1070): `(e) => /\S+@\S+\.\S+/.test(e)`. -/
def validateEmail (e : String) : Bool :=
  scanAt e.data

/-! ### Contact form (src/App.tsx lines 1056-1203) -/

/-- The mutable field state of `ContactForm`: `name`, `company`, `email`,
`budget`, `message`, `maintenance` and the honeypot `hp`. -/
structure FormState where
  name : String
  company : String
  email : String
  budget : String
  message : String
  maintenance : Bool
  hp : String
deriving DecidableEq, Repr

/-- The initial values of the `useState` hooks of `ContactForm`
(src/App.tsx lines 1057-1068). -/
def initialForm : FormState :=
  { name := "", company := "", email := "", budget := "749", message := "",
    maintenance := false, hp := "" }

/-- Outcome of the `fetch` POST to the form-relay endpoint: an OK (200)
response, a non-OK response, or a thrown network error. -/
inductive FetchOutcome
  | ok
  | nonOk
  | netError
deriving DecidableEq, Repr

/-- Observable result of one invocation of `handleSubmit`: the field state
after the handler returns, the `error` and `success` messages, the number of
POSTs issued to the form-relay endpoint, and the final `loading` flag. -/
structure SubmitResult where
  form : FormState
  error : Option String
  success : Option String
  posts : Nat
  loading : Bool
deriving DecidableEq, Repr

/-- `ContactForm.handleSubmit` (src/App.tsx lines 1072-1123).  The handler
clears both messages, then validates in order: empty (trimmed) name, regex
email, honeypot; each failing validation returns before any network call.
Otherwise it POSTs once; on OK it sets the success message and resets the
fields (the honeypot is not touched), on non-OK or a thrown error it sets the
corresponding error message and leaves the fields alone.  `loading` is set
back to false in the `finally` block. -/
def handleSubmit (st : FormState) (outcome : FetchOutcome) : SubmitResult :=
  if jsTrim st.name = "" then
    { form := st, error := some "Nom requis.", success := none,
      posts := 0, loading := false }
  else if validateEmail st.email = false then
    { form := st, error := some "Email invalide.", success := none,
      posts := 0, loading := false }
  else if st.hp ≠ "" then
    { form := st, error := some "Bot détecté.", success := none,
      posts := 0, loading := false }
  else
    match outcome with
    | .ok =>
      { form := { name := "", company := "", email := "", budget := "749",
                  message := "", maintenance := false, hp := st.hp },
        error := none,
        success := some "Merci ! Votre demande a été envoyée. Nous vous contactons sous 24h.",
        posts := 1, loading := false }
    | .nonOk =>
      { form := st, error := some "Erreur d'envoi — veuillez réessayer plus tard.",
        success := none, posts := 1, loading := false }
    | .netError =>
      { form := st, error := some "Erreur de réseau — vérifiez votre connexion.",
        success := none, posts := 1, loading := false }

/-! ### Real-estate mini-site (src/App.tsx lines 757-834) -/

/-- One sample listing of `RealEstateMiniSite` (the unused `img` field, always
`null`, is omitted). -/
structure House where
  id : Nat
  title : String
  price : Nat
  beds : Nat
deriving DecidableEq, Repr

/-- The fixed in-memory `sampleHouses` list (src/App.tsx lines 760-764). -/
def sampleHouses : List House :=
  [ ⟨1, "Loft lumineux — 3 pièces", 420000, 2⟩,
    ⟨2, "Maison familiale — Jardin", 680000, 4⟩,
    ⟨3, "Studio centre-ville", 210000, 0⟩ ]

/-- The filter of src/App.tsx line 766:
`sampleHouses.filter((h) => h.price <= filters.maxPrice && h.beds >= filters.beds
  && h.title.toLowerCase().includes(query.toLowerCase()))`. -/
def realEstateResults (query : String) (beds maxPrice : Nat) : List House :=
  sampleHouses.filter fun h =>
    decide (h.price ≤ maxPrice) && decide (beds ≤ h.beds) &&
      jsIncludes (jsToLower h.title) (jsToLower query)

/-- The render condition of the no-results message (src/App.tsx line 813):
`results.length === 0 && <div>Aucun résultat ...</div>`. -/
def noResultsShown (query : String) (beds maxPrice : Nat) : Bool :=
  (realEstateResults query beds maxPrice).length == 0

/-! ### Scroll progress (src/App.tsx lines 50 and 67-80) -/

/-- `clamp` (src/App.tsx line 50): `(v, a = 0, b = 1) => Math.max(a, Math.min(b, v))`. -/
def clamp (v a b : ℚ) : ℚ :=
  max a (min b v)

/-- The `handleScroll` computation (src/App.tsx lines 68-72): with
`total = scrollHeight - innerHeight`, progress is
`clamp(total > 0 ? scrollY / total : 0, 0, 1)`. -/
def scrollProgress (scrollHeight innerHeight scrollY : ℚ) : ℚ :=
  let total := scrollHeight - innerHeight
  let scrolled := if total > 0 then scrollY / total else 0
  clamp scrolled 0 1

/-! ### Canvas particle background (src/App.tsx lines 418-509) -/

/-- One particle of the background animation. -/
structure Particle where
  x : ℚ
  y : ℚ
  vx : ℚ
  vy : ℚ
  r : ℚ
  hue : ℚ
  life : ℚ
  maxLife : ℚ
  alpha : ℚ
deriving DecidableEq, Repr

/-- `rand` (src/App.tsx lines 432-434): `Math.random() * (max - min) + min`,
with `u` standing for the `Math.random()` draw, a value in `[0, 1)`. -/
def rand (u lo hi : ℚ) : ℚ :=
  u * (hi - lo) + lo

/-- The eight `Math.random()` draws consumed by one `Particle.reset`. -/
structure RandVals where
  ux : ℚ
  uy : ℚ
  uvx : ℚ
  uvy : ℚ
  ur : ℚ
  uhue : ℚ
  umaxLife : ℚ
  ualpha : ℚ
deriving DecidableEq, Repr

/-- `Particle.reset` (src/App.tsx lines 449-459): a fresh randomized state. -/
def Particle.reset (w h : ℚ) (rv : RandVals) : Particle :=
  { x := rand rv.ux 0 w,
    y := rand rv.uy 0 h,
    vx := rand rv.uvx (-0.12) 0.12,
    vy := rand rv.uvy (-0.08) 0.08,
    r := rand rv.ur 0.8 3.2,
    hue := 180 + rand rv.uhue (-20) 20,
    life := 0,
    maxLife := rand rv.umaxLife 120 600,
    alpha := rand rv.ualpha 0.05 0.35 }

/-- The out-of-viewport test of src/App.tsx line 465:
`x < -10 || x > width + 10 || y < -10 || y > height + 10`. -/
def outOfBounds (w h x y : ℚ) : Bool :=
  decide (x < -10) || decide (x > w + 10) || decide (y < -10) || decide (y > h + 10)

/-- `Particle.step` (src/App.tsx lines 460-466): advance the position by the
velocity, increment the life counter, reset when the counter exceeds the
randomized maximum lifetime, then reset when the (possibly just reset)
position lies outside the padded viewport.  `rv1` and `rv2` are the random
draws the two potential resets would consume. -/
def Particle.step (w h : ℚ) (rv1 rv2 : RandVals) (p : Particle) : Particle :=
  let p1 : Particle := { p with x := p.x + p.vx, y := p.y + p.vy, life := p.life + 1 }
  let p2 : Particle := if p1.life > p1.maxLife then Particle.reset w h rv1 else p1
  if outOfBounds w h p2.x p2.y then Particle.reset w h rv2 else p2

/-- `Math.round`, which rounds half-way cases toward positive infinity:
`⌊q + 1/2⌋`. -/
def jsRound (q : ℚ) : ℤ :=
  ⌊q + 1 / 2⌋

/-- The particle-count formula (src/App.tsx lines 429 and 498):
`Math.round((width * height) / 45000)`. -/
def particleCount (w h : ℚ) : ℤ :=
  jsRound (w * h / 45000)

/-- The seeding loop (src/App.tsx line 478 on mount, line 499 on resize):
`for (let i = 0; i < count; i++) particles.push(new Particle())`, the
constructor calling `reset`; `rs i` is the batch of random draws consumed by
the `i`-th constructed particle. -/
def seedParticles (w h : ℚ) (rs : ℕ → RandVals) : List Particle :=
  (List.range (particleCount w h).toNat).map fun i => Particle.reset w h (rs i)

/-- The state owned by the `CanvasParticles` effect: the canvas dimensions and
the particle array. -/
structure CanvasState where
  width : ℚ
  height : ℚ
  particles : List Particle

/-- Mount-time initialisation (src/App.tsx lines 427-430 and 478): size the
surface to the viewport and seed the particles. -/
def mountCanvas (w h : ℚ) (rs : ℕ → RandVals) : CanvasState :=
  { width := w, height := h, particles := seedParticles w h rs }

/-- `onResize` (src/App.tsx lines 493-500): resize the surface to the new
viewport, empty the particle array (`particles.length = 0`) and refill it
with `Math.round((width * height) / 45000)` fresh particles.  The previous
state `st` is discarded entirely. -/
def resizeCanvas (_st : CanvasState) (w h : ℚ) (rs : ℕ → RandVals) : CanvasState :=
  { width := w, height := h, particles := seedParticles w h rs }

/-! ### Limited-slots counter (src/App.tsx lines 1245-1254) -/

/-- One interval tick of `CTABox`:
`setSlots((s) => (s > 2 ? s - (Math.random() > 0.8 ? 1 : 0) : s))`,
with `d` standing for the draw `Math.random() > 0.8`. -/
def slotsTick (d : Bool) (s : ℤ) : ℤ :=
  if s > 2 then s - (if d then 1 else 0) else s

/-- The initial `useState(6)` value of the counter. -/
def slotsInit : ℤ := 6

/-- The counter value after a sequence of interval ticks with draws `ds`. -/
def slotsAfter (ds : List Bool) : ℤ :=
  ds.foldl (fun s d => slotsTick d s) slotsInit

end Vortex

/-! ## Claims -/

namespace Vortex

/-- A name all of whose characters are whitespace trims to the empty string. -/
lemma jsTrim_eq_empty_of_all_space (s : String) (h : s.data.all isJsSpace = true) :
    jsTrim s = "" := by
  have h1 : s.data.dropWhile isJsSpace = [] := by
    rw [List.dropWhile_eq_nil_iff]
    intro x hx
    exact List.all_eq_true.mp h x hx
  unfold jsTrim
  rw [h1]
  rfl

/-- C1: for every contact-form state whose name is empty or whitespace-only,
`handleSubmit` issues no POST to the form-relay endpoint, sets the error state
to the name-required message, and leaves the fields unchanged. -/
theorem c1_empty_name_blocks (st : FormState) (o : FetchOutcome)
    (hname : st.name.data.all isJsSpace = true) :
    (handleSubmit st o).posts = 0 ∧
    (handleSubmit st o).error = some "Nom requis." ∧
    (handleSubmit st o).form = st := by
  have h := jsTrim_eq_empty_of_all_space st.name hname
  simp [handleSubmit, h]

/-- C1 witness: the whitespace-only name `" "` with an otherwise valid state. -/
theorem c1_empty_name_blocks_witness :
    (" " : String).data.all isJsSpace = true ∧
    (handleSubmit ⟨" ", "", "a@b.c", "749", "", false, ""⟩ FetchOutcome.ok).posts = 0 ∧
    (handleSubmit ⟨" ", "", "a@b.c", "749", "", false, ""⟩ FetchOutcome.ok).error = some "Nom requis." ∧
    (handleSubmit ⟨" ", "", "a@b.c", "749", "", false, ""⟩ FetchOutcome.ok).form = ⟨" ", "", "a@b.c", "749", "", false, ""⟩ :=
  ⟨by decide, c1_empty_name_blocks ⟨" ", "", "a@b.c", "749", "", false, ""⟩ FetchOutcome.ok (by decide)⟩

/-- C3 counterexample: the claim quantifies over states with a NON-EMPTY name,
but a whitespace-only name such as `" "` is non-empty and still trips the
name validation first, so the handler reports the name-required error rather
than the invalid-email error. -/
theorem c3_whitespace_name_cex :
    (⟨" ", "", "x", "749", "", false, ""⟩ : FormState).name ≠ "" ∧
    validateEmail (⟨" ", "", "x", "749", "", false, ""⟩ : FormState).email = false ∧
    (handleSubmit ⟨" ", "", "x", "749", "", false, ""⟩ FetchOutcome.ok).error = some "Nom requis." := by
  decide

/-- C3 (amended): for every contact-form state whose name is non-empty after
trimming and whose email fails the regex test, `handleSubmit` sets the
invalid-email error and issues no network call. -/
theorem c3_invalid_email_blocks (st : FormState) (o : FetchOutcome)
    (hname : jsTrim st.name ≠ "") (hemail : validateEmail st.email = false) :
    (handleSubmit st o).error = some "Email invalide." ∧
    (handleSubmit st o).posts = 0 := by
  simp [handleSubmit, hname, hemail]

/-- C3 witness: a non-blank name with the malformed email `"nodomain"`. -/
theorem c3_invalid_email_blocks_witness :
    jsTrim "Alice" ≠ "" ∧ validateEmail "nodomain" = false ∧
    (handleSubmit ⟨"Alice", "", "nodomain", "749", "", false, ""⟩ FetchOutcome.ok).error = some "Email invalide." ∧
    (handleSubmit ⟨"Alice", "", "nodomain", "749", "", false, ""⟩ FetchOutcome.ok).posts = 0 :=
  ⟨by decide, by decide,
    c3_invalid_email_blocks ⟨"Alice", "", "nodomain", "749", "", false, ""⟩ FetchOutcome.ok
      (by decide) (by decide)⟩

/-- C4: a non-empty honeypot field means `handleSubmit` never issues the
network call, whatever the other fields hold: every validation branch returns
before the POST, and the POST branch is only reachable with an empty honeypot. -/
theorem c4_honeypot_blocks (st : FormState) (o : FetchOutcome)
    (hhp : st.hp ≠ "") :
    (handleSubmit st o).posts = 0 := by
  by_cases h1 : jsTrim st.name = ""
  · simp [handleSubmit, h1]
  · by_cases h2 : validateEmail st.email = false
    · simp [handleSubmit, h1, h2]
    · simp [handleSubmit, h1, h2, hhp]

/-- C5: if the state passes all three local validations and the POST returns
an OK response, the handler resets every field to its initial value (the
honeypot, untouched by the reset, was already empty by hypothesis) and sets
the success message, clearing the error. -/
theorem c5_success_resets (st : FormState)
    (h1 : jsTrim st.name ≠ "") (h2 : validateEmail st.email = true) (h3 : st.hp = "") :
    (handleSubmit st FetchOutcome.ok).form = initialForm ∧
    (handleSubmit st FetchOutcome.ok).success =
      some "Merci ! Votre demande a été envoyée. Nous vous contactons sous 24h." ∧
    (handleSubmit st FetchOutcome.ok).error = none := by
  simp [handleSubmit, h1, h2, h3, initialForm]

/-- C5 witness: a valid submission that receives a 200 response. -/
theorem c5_success_resets_witness :
    jsTrim "Alice" ≠ "" ∧ validateEmail "a@b.c" = true ∧
    (⟨"Alice", "ACME", "a@b.c", "1500", "hi", true, ""⟩ : FormState).hp = "" ∧
    (handleSubmit ⟨"Alice", "ACME", "a@b.c", "1500", "hi", true, ""⟩ FetchOutcome.ok).form = initialForm ∧
    (handleSubmit ⟨"Alice", "ACME", "a@b.c", "1500", "hi", true, ""⟩ FetchOutcome.ok).success =
      some "Merci ! Votre demande a été envoyée. Nous vous contactons sous 24h." ∧
    (handleSubmit ⟨"Alice", "ACME", "a@b.c", "1500", "hi", true, ""⟩ FetchOutcome.ok).error = none := by
  refine ⟨by decide, by decide, by decide, ?_⟩
  exact c5_success_resets ⟨"Alice", "ACME", "a@b.c", "1500", "hi", true, ""⟩
    (by decide) (by decide) (by decide)

/-- C7: if the state passes the local validations but the POST returns non-OK
or throws, the handler sets one of the two fixed generic failure messages,
leaves every field unchanged, and issues exactly one POST (no retry). -/
theorem c7_failure_terminal (st : FormState) (o : FetchOutcome)
    (h1 : jsTrim st.name ≠ "") (h2 : validateEmail st.email = true) (h3 : st.hp = "")
    (ho : o ≠ FetchOutcome.ok) :
    (handleSubmit st o).form = st ∧
    (handleSubmit st o).posts = 1 ∧
    (handleSubmit st o).success = none ∧
    ((handleSubmit st o).error = some "Erreur d'envoi — veuillez réessayer plus tard." ∨
     (handleSubmit st o).error = some "Erreur de réseau — vérifiez votre connexion.") := by
  cases o with
  | ok => exact absurd rfl ho
  | nonOk => simp [handleSubmit, h1, h2, h3]
  | netError => simp [handleSubmit, h1, h2, h3]

/-- C7 witness: a valid submission that receives a non-OK response. -/
theorem c7_failure_terminal_witness :
    jsTrim "Alice" ≠ "" ∧ validateEmail "a@b.c" = true ∧
    (⟨"Alice", "ACME", "a@b.c", "749", "hi", false, ""⟩ : FormState).hp = "" ∧
    FetchOutcome.nonOk ≠ FetchOutcome.ok ∧
    ((handleSubmit ⟨"Alice", "ACME", "a@b.c", "749", "hi", false, ""⟩ FetchOutcome.nonOk).form =
        ⟨"Alice", "ACME", "a@b.c", "749", "hi", false, ""⟩ ∧
      (handleSubmit ⟨"Alice", "ACME", "a@b.c", "749", "hi", false, ""⟩ FetchOutcome.nonOk).posts = 1 ∧
      (handleSubmit ⟨"Alice", "ACME", "a@b.c", "749", "hi", false, ""⟩ FetchOutcome.nonOk).success = none ∧
      ((handleSubmit ⟨"Alice", "ACME", "a@b.c", "749", "hi", false, ""⟩ FetchOutcome.nonOk).error =
          some "Erreur d'envoi — veuillez réessayer plus tard." ∨
        (handleSubmit ⟨"Alice", "ACME", "a@b.c", "749", "hi", false, ""⟩ FetchOutcome.nonOk).error =
          some "Erreur de réseau — vérifiez votre connexion.")) :=
  ⟨by decide, by decide, by decide, by decide,
    c7_failure_terminal ⟨"Alice", "ACME", "a@b.c", "749", "hi", false, ""⟩ FetchOutcome.nonOk
      (by decide) (by decide) (by decide) (by decide)⟩

/-- C4 witness: a fully valid form state except for a filled honeypot. -/
theorem c4_honeypot_blocks_witness :
    (⟨"Alice", "ACME", "a@b.c", "749", "hi", false, "bot"⟩ : FormState).hp ≠ "" ∧
    (handleSubmit ⟨"Alice", "ACME", "a@b.c", "749", "hi", false, "bot"⟩ FetchOutcome.ok).posts = 0 :=
  ⟨by decide, c4_honeypot_blocks ⟨"Alice", "ACME", "a@b.c", "749", "hi", false, "bot"⟩
    FetchOutcome.ok (by decide)⟩

/-- C2: over the fixed three-element sample list, a listing is in the filter
result iff its price is at most the selected maximum, its bedroom count is at
least the selected minimum, and its lower-cased title contains the lower-cased
query as a substring; and the no-results message is rendered exactly when the
result list is empty. -/
theorem c2_realestate_filter (query : String) (beds maxPrice : Nat) (h : House) :
    sampleHouses.length = 3 ∧
    (h ∈ realEstateResults query beds maxPrice ↔
      h ∈ sampleHouses ∧ h.price ≤ maxPrice ∧ beds ≤ h.beds ∧
        jsIncludes (jsToLower h.title) (jsToLower query) = true) ∧
    (noResultsShown query beds maxPrice = true ↔
      realEstateResults query beds maxPrice = []) := by
  refine ⟨rfl, ?_, ?_⟩
  · rw [realEstateResults, List.mem_filter]
    simp [and_assoc]
  · rw [noResultsShown, Nat.beq_eq_true_eq, List.length_eq_zero]

/-- C2 witness: the query `"LOFT"` with minimum 2 bedrooms and maximum price
500000 selects exactly the loft listing, case-insensitively. -/
theorem c2_realestate_filter_witness :
    sampleHouses.length = 3 ∧
    ((⟨1, "Loft lumineux — 3 pièces", 420000, 2⟩ : House) ∈ realEstateResults "LOFT" 2 500000 ↔
      (⟨1, "Loft lumineux — 3 pièces", 420000, 2⟩ : House) ∈ sampleHouses ∧
        (⟨1, "Loft lumineux — 3 pièces", 420000, 2⟩ : House).price ≤ 500000 ∧
        2 ≤ (⟨1, "Loft lumineux — 3 pièces", 420000, 2⟩ : House).beds ∧
        jsIncludes (jsToLower (⟨1, "Loft lumineux — 3 pièces", 420000, 2⟩ : House).title)
          (jsToLower "LOFT") = true) ∧
    (noResultsShown "LOFT" 2 500000 = true ↔ realEstateResults "LOFT" 2 500000 = []) :=
  c2_realestate_filter "LOFT" 2 500000 ⟨1, "Loft lumineux — 3 pièces", 420000, 2⟩

/-- C6: the scroll progress always lies in `[0, 1]`; it is `0` when the scroll
offset is `0` and whenever the scrollable height is not positive; and when the
scrollable height is positive it equals `scrollY / (scrollHeight - innerHeight)`
clamped to `[0, 1]`, so overscroll beyond either end cannot leave `[0, 1]`. -/
theorem c6_scroll_progress (sh ih sy : ℚ) :
    (0 ≤ scrollProgress sh ih sy ∧ scrollProgress sh ih sy ≤ 1) ∧
    (sy = 0 → scrollProgress sh ih sy = 0) ∧
    (sh - ih ≤ 0 → scrollProgress sh ih sy = 0) ∧
    (0 < sh - ih → scrollProgress sh ih sy = clamp (sy / (sh - ih)) 0 1) := by
  refine ⟨⟨le_max_left 0 _, max_le (by norm_num) ((min_le_left 1 _))⟩, ?_, ?_, ?_⟩
  · intro hsy
    simp only [scrollProgress, clamp, hsy]
    split <;> simp
  · intro htot
    have : ¬ (0 : ℚ) < sh - ih := not_lt.mpr htot
    simp only [scrollProgress, clamp, if_neg this]
    simp
  · intro htot
    simp only [scrollProgress, clamp, if_pos htot]

/-- C6 witness: a 2000-pixel document in an 800-pixel viewport at offsets 0 and
600, and a non-scrollable 500-pixel document. -/
theorem c6_scroll_progress_witness :
    (0 ≤ scrollProgress 2000 800 600 ∧ scrollProgress 2000 800 600 ≤ 1) ∧
    scrollProgress 2000 800 0 = 0 ∧
    scrollProgress 500 800 600 = 0 ∧
    scrollProgress 2000 800 600 = clamp (600 / (2000 - 800)) 0 1 :=
  ⟨(c6_scroll_progress 2000 800 600).1,
    (c6_scroll_progress 2000 800 0).2.1 rfl,
    (c6_scroll_progress 500 800 600).2.2.1 (by norm_num),
    (c6_scroll_progress 2000 800 600).2.2.2 (by norm_num)⟩

/-- A particle freshly reset with `Math.random()` draws in `[0, 1)` lies inside
the padded viewport whenever the viewport dimensions are nonnegative, so a
life-triggered reset is never immediately followed by a bounds-triggered one. -/
lemma outOfBounds_reset (w h : ℚ) (rv : RandVals)
    (hw : 0 ≤ w) (hh : 0 ≤ h)
    (hx0 : 0 ≤ rv.ux) (hx1 : rv.ux ≤ 1) (hy0 : 0 ≤ rv.uy) (hy1 : rv.uy ≤ 1) :
    outOfBounds w h (Particle.reset w h rv).x (Particle.reset w h rv).y = false := by
  have hxw : 0 ≤ rv.ux * w := mul_nonneg hx0 hw
  have hxw2 : rv.ux * w ≤ w := mul_le_of_le_one_left hw hx1
  have hyh : 0 ≤ rv.uy * h := mul_nonneg hy0 hh
  have hyh2 : rv.uy * h ≤ h := mul_le_of_le_one_left hh hy1
  simp only [outOfBounds, Particle.reset, rand, Bool.or_eq_false_iff,
    decide_eq_false_iff_not, not_lt]
  refine ⟨⟨⟨?_, ?_⟩, ?_⟩, ?_⟩ <;> nlinarith

/-- C8: one frame step advances the position by the velocity and increments
the life counter; the particle is respawned to a fresh randomized state
exactly when the incremented counter exceeds its randomized maximum lifetime
or the advanced position leaves the padded viewport; otherwise the velocity,
radius, hue, alpha and maximum lifetime are unchanged. -/
theorem c8_particle_step (w h : ℚ) (rv1 rv2 : RandVals) (p : Particle)
    (hw : 0 ≤ w) (hh : 0 ≤ h)
    (hx0 : 0 ≤ rv1.ux) (hx1 : rv1.ux ≤ 1) (hy0 : 0 ≤ rv1.uy) (hy1 : rv1.uy ≤ 1) :
    Particle.step w h rv1 rv2 p =
      (if p.life + 1 > p.maxLife then Particle.reset w h rv1
       else if outOfBounds w h (p.x + p.vx) (p.y + p.vy) then Particle.reset w h rv2
       else { p with x := p.x + p.vx, y := p.y + p.vy, life := p.life + 1 }) := by
  by_cases hl : p.life + 1 > p.maxLife
  · simp only [Particle.step, if_pos hl,
      outOfBounds_reset w h rv1 hw hh hx0 hx1 hy0 hy1, if_neg]
    simp [if_pos hl]
  · simp only [Particle.step, if_neg hl]

/-- C8 witness: a live in-bounds particle in a 100 by 100 viewport simply
drifts by its velocity. -/
theorem c8_particle_step_witness :
    (0 : ℚ) ≤ 100 ∧ (0 : ℚ) ≤ 100 ∧
    (0 : ℚ) ≤ (⟨0, 0, 0, 0, 0, 0, 0, 0⟩ : RandVals).ux ∧
    (⟨0, 0, 0, 0, 0, 0, 0, 0⟩ : RandVals).ux ≤ 1 ∧
    (0 : ℚ) ≤ (⟨0, 0, 0, 0, 0, 0, 0, 0⟩ : RandVals).uy ∧
    (⟨0, 0, 0, 0, 0, 0, 0, 0⟩ : RandVals).uy ≤ 1 ∧
    Particle.step 100 100 ⟨0, 0, 0, 0, 0, 0, 0, 0⟩ ⟨0, 0, 0, 0, 0, 0, 0, 0⟩
        ⟨5, 5, 1, 1, 2, 180, 0, 3, 1 / 5⟩ =
      (if (⟨5, 5, 1, 1, 2, 180, 0, 3, 1 / 5⟩ : Particle).life + 1 >
          (⟨5, 5, 1, 1, 2, 180, 0, 3, 1 / 5⟩ : Particle).maxLife then
        Particle.reset 100 100 ⟨0, 0, 0, 0, 0, 0, 0, 0⟩
       else if outOfBounds 100 100
          ((⟨5, 5, 1, 1, 2, 180, 0, 3, 1 / 5⟩ : Particle).x +
            (⟨5, 5, 1, 1, 2, 180, 0, 3, 1 / 5⟩ : Particle).vx)
          ((⟨5, 5, 1, 1, 2, 180, 0, 3, 1 / 5⟩ : Particle).y +
            (⟨5, 5, 1, 1, 2, 180, 0, 3, 1 / 5⟩ : Particle).vy) then
        Particle.reset 100 100 ⟨0, 0, 0, 0, 0, 0, 0, 0⟩
       else { (⟨5, 5, 1, 1, 2, 180, 0, 3, 1 / 5⟩ : Particle) with
                x := (⟨5, 5, 1, 1, 2, 180, 0, 3, 1 / 5⟩ : Particle).x +
                  (⟨5, 5, 1, 1, 2, 180, 0, 3, 1 / 5⟩ : Particle).vx,
                y := (⟨5, 5, 1, 1, 2, 180, 0, 3, 1 / 5⟩ : Particle).y +
                  (⟨5, 5, 1, 1, 2, 180, 0, 3, 1 / 5⟩ : Particle).vy,
                life := (⟨5, 5, 1, 1, 2, 180, 0, 3, 1 / 5⟩ : Particle).life + 1 }) :=
  ⟨by norm_num, by norm_num, by norm_num, by norm_num, by norm_num, by norm_num,
    c8_particle_step 100 100 ⟨0, 0, 0, 0, 0, 0, 0, 0⟩ ⟨0, 0, 0, 0, 0, 0, 0, 0⟩
      ⟨5, 5, 1, 1, 2, 180, 0, 3, 1 / 5⟩
      (by norm_num) (by norm_num) (by norm_num) (by norm_num) (by norm_num) (by norm_num)⟩

/-- C9: the mount seeds `Math.round(width * height / 45000)` particles; a
resize replaces the state wholesale — the surface takes the new dimensions and
the particle set is regenerated from scratch, its size recomputed by the same
formula from the new dimensions, independently of the previous state. -/
theorem c9_particle_seeding (st : CanvasState) (w h w2 h2 : ℚ)
    (rs rs2 : ℕ → RandVals) :
    particleCount w h = ⌊w * h / 45000 + 1 / 2⌋ ∧
    (mountCanvas w h rs).particles.length = (particleCount w h).toNat ∧
    resizeCanvas st w2 h2 rs2 = mountCanvas w2 h2 rs2 ∧
    (resizeCanvas st w2 h2 rs2).width = w2 ∧
    (resizeCanvas st w2 h2 rs2).height = h2 ∧
    (resizeCanvas st w2 h2 rs2).particles.length = (particleCount w2 h2).toNat := by
  refine ⟨rfl, ?_, rfl, rfl, rfl, ?_⟩ <;>
    simp [mountCanvas, resizeCanvas, seedParticles]

/-- C9 witness: a 300 by 150 viewport resized to 900 by 500. -/
theorem c9_particle_seeding_witness :
    particleCount 300 150 = ⌊(300 : ℚ) * 150 / 45000 + 1 / 2⌋ ∧
    (mountCanvas 300 150 fun _ => ⟨0, 0, 0, 0, 0, 0, 0, 0⟩).particles.length =
      (particleCount 300 150).toNat ∧
    resizeCanvas ⟨300, 150, []⟩ 900 500 (fun _ => ⟨0, 0, 0, 0, 0, 0, 0, 0⟩) =
      mountCanvas 900 500 (fun _ => ⟨0, 0, 0, 0, 0, 0, 0, 0⟩) ∧
    (resizeCanvas ⟨300, 150, []⟩ 900 500 fun _ => ⟨0, 0, 0, 0, 0, 0, 0, 0⟩).width = 900 ∧
    (resizeCanvas ⟨300, 150, []⟩ 900 500 fun _ => ⟨0, 0, 0, 0, 0, 0, 0, 0⟩).height = 500 ∧
    (resizeCanvas ⟨300, 150, []⟩ 900 500 fun _ => ⟨0, 0, 0, 0, 0, 0, 0, 0⟩).particles.length =
      (particleCount 900 500).toNat :=
  c9_particle_seeding ⟨300, 150, []⟩ 300 150 900 500
    (fun _ => ⟨0, 0, 0, 0, 0, 0, 0, 0⟩) (fun _ => ⟨0, 0, 0, 0, 0, 0, 0, 0⟩)

/-- One tick never increases the counter. -/
lemma slotsTick_le (d : Bool) (s : ℤ) : slotsTick d s ≤ s := by
  unfold slotsTick
  split
  · split <;> omega
  · omega

/-- One tick decrements by at most 1. -/
lemma slotsTick_drop_le_one (d : Bool) (s : ℤ) : s - slotsTick d s ≤ 1 := by
  unfold slotsTick
  split
  · split <;> omega
  · omega

/-- One tick keeps the counter at 2 or above. -/
lemma slotsTick_ge_two (d : Bool) (s : ℤ) (h : 2 ≤ s) : 2 ≤ slotsTick d s := by
  unfold slotsTick
  split
  · split <;> omega
  · omega

/-- Folding ticks over any draw sequence keeps the counter within `[2, 6]`. -/
lemma slots_fold_bounds (ds : List Bool) (s : ℤ) (h2 : 2 ≤ s) (h6 : s ≤ 6) :
    2 ≤ ds.foldl (fun a d => slotsTick d a) s ∧
      ds.foldl (fun a d => slotsTick d a) s ≤ 6 := by
  induction ds generalizing s with
  | nil => exact ⟨h2, h6⟩
  | cons d ds ih =>
    simp only [List.foldl_cons]
    exact ih (slotsTick d s) (slotsTick_ge_two d s h2)
      (le_trans (slotsTick_le d s) h6)

/-- C10: the limited-slots counter starts at 6, is non-increasing, loses at
most 1 per tick, and never drops below 2, so it always lies in `[2, 6]`. -/
theorem c10_slots_invariant (ds : List Bool) (d : Bool) :
    slotsAfter [] = 6 ∧
    2 ≤ slotsAfter ds ∧ slotsAfter ds ≤ 6 ∧
    slotsAfter (ds ++ [d]) ≤ slotsAfter ds ∧
    slotsAfter ds - slotsAfter (ds ++ [d]) ≤ 1 := by
  have hb := slots_fold_bounds ds slotsInit (by norm_num [slotsInit]) (by norm_num [slotsInit])
  have happ : slotsAfter (ds ++ [d]) = slotsTick d (slotsAfter ds) := by
    simp [slotsAfter, List.foldl_append]
  refine ⟨rfl, hb.1, hb.2, ?_, ?_⟩
  · rw [happ]
    exact slotsTick_le d (slotsAfter ds)
  · rw [happ]
    exact slotsTick_drop_le_one d (slotsAfter ds)

/-- C10 witness: two ticks, of which the first decrements. -/
theorem c10_slots_invariant_witness :
    slotsAfter [] = 6 ∧
    2 ≤ slotsAfter [true, false] ∧ slotsAfter [true, false] ≤ 6 ∧
    slotsAfter ([true, false] ++ [true]) ≤ slotsAfter [true, false] ∧
    slotsAfter [true, false] - slotsAfter ([true, false] ++ [true]) ≤ 1 :=
  c10_slots_invariant [true, false] true

end Vortex
